import Mathlib

/-!
Verification of the queue-consumer core of `scrapyx` (src/scrapyx/x.py),
the worker-pool / queue-consumption engine of the repository.

The development shallowly embeds the consumer loop of `Command.consumer`
(lines 113-200 of x.py) and the key derivation of `Command.boot`
(lines 104-111).  External effects are modelled as explicit inputs:

* the Redis connection attempt (line 126) is an `Except String Unit`
  (`error e` means the constructor raised with message `e`);
* one blocking dequeue plus JSON parse (lines 138, 145) is an
  `Except String (Option JVal)` — `error e` means `blpop` raised,
  `ok none` means the payload made `json.loads` raise, and
  `ok (some v)` means the payload parsed to the JSON value `v`;
* the external executor `utils.crawl` (line 173) is a function from the
  resolved spider name and the args mapping to `Option String`, where
  `some msg` means it raised an exception whose string form is `msg`;
* the two Redis counters live in a `RedisState`; `os._exit(-1)` is the
  outcome `fatalExit (-1)`.
-/

namespace ScrapyX

/-- JSON values, as produced by `json.loads`: null, booleans, numbers,
strings, arrays and objects.  Python `None` is represented by `jnull`
(both an absent field read with default `None` and a literal JSON null
give Python `None`). -/
inductive JVal where
  | jnull : JVal
  | jbool : Bool → JVal
  | jnum : Int → JVal
  | jstr : String → JVal
  | jarr : List JVal → JVal
  | jobj : List (String × JVal) → JVal

/-- First-match lookup of a key inside a JSON object, i.e. Python
`dict` access on the decoded payload. -/
def JVal.lookup (fields : List (String × JVal)) (k : String) : Option JVal :=
  match fields with
  | [] => none
  | (k', v) :: rest => if k' = k then some v else JVal.lookup rest k

/-- Whether a JSON value is an object, i.e. Python `isinstance(x, dict)`. -/
def JVal.isObj : JVal → Bool
  | .jobj _ => true
  | _ => false

/-- Log levels used by the consumer (`self.logger.info` / `.warning` /
`.critical`). -/
inductive LogLevel where
  | info : LogLevel
  | warning : LogLevel
  | critical : LogLevel
deriving DecidableEq, Repr

/-- One emitted log event, identified by its level and the fixed text of
its message template in x.py. -/
structure LogEvent where
  level : LogLevel
  tag : String
deriving DecidableEq, Repr

/-- The two Redis counters of one queue: the finished counter
(`...C.FINISHED.`) and the rolling rate counter (`...C.RPM.`). -/
structure RedisState where
  finished : Nat
  rpm : Nat
deriving DecidableEq, Repr

/-- How control leaves one step of the consumer: back to the blocking
dequeue, or an abrupt process termination `os._exit code` (x.py always
uses `os._exit(-1)`, which performs no cleanup and no unwind). -/
inductive Outcome where
  | continueLoop : Outcome
  | fatalExit : Int → Outcome
deriving DecidableEq, Repr

/-- The characters Python `str.strip()` removes with no argument: the
code points CPython treats as whitespace, namely 09-0D, 1C-1F, the
space, 85, A0, 1680, 2000-200A, 2028, 2029, 202F, 205F and 3000. -/
def pySpaceChars : List Char :=
  ['\t', '\n', '\x0b', '\x0c', '\r', '\x1c', '\x1d', '\x1e', '\x1f',
   ' ', '\x85', '\xa0', '\u1680', '\u2000', '\u2001', '\u2002', '\u2003',
   '\u2004', '\u2005', '\u2006', '\u2007', '\u2008', '\u2009', '\u200a',
   '\u2028', '\u2029', '\u202f', '\u205f', '\u3000']

/-- Whether a character is stripped by Python `str.strip()`. -/
def isPySpace (c : Char) : Bool :=
  pySpaceChars.contains c

/-- Python `str.strip()`: drop leading and trailing whitespace. -/
def pyStrip (s : String) : String :=
  String.mk (((s.toList.dropWhile isPySpace).reverse.dropWhile isPySpace).reverse)

/-- The three derived backend key names of one queue suffix, as computed
in `Command.boot` lines 105-107. -/
structure QueueKeySet where
  backlog : String
  finishedCounter : String
  rateCounter : String
deriving DecidableEq, Repr

/-- Key derivation of `Command.boot` (x.py lines 104-111): for namespace
`qname` (`self.queue_name`) and a queue suffix, build the backlog key,
the finished-counter key and the RPM key by string concatenation. -/
def deriveKeys (qname : String) (suffix : String) : QueueKeySet :=
  { backlog := qname ++ "." ++ suffix ++ ".BACKLOG"
  , finishedCounter := qname ++ "." ++ suffix ++ ".C.FINISHED."
  , rateCounter := qname ++ "." ++ suffix ++ ".C.RPM." }

/-- `spider_name = task.get("spider", None)` (x.py line 154): read the
`spider` field of the decoded object, `jnull` (Python `None`) when
absent. -/
def extractSpiderName (fields : List (String × JVal)) : JVal :=
  (JVal.lookup fields "spider").getD .jnull

/-- Whether a decoded JSON value is hashable in Python: lists (`jarr`)
and dicts (`jobj`) are unhashable, everything else can be a dict key. -/
def JVal.hashable : JVal → Bool
  | .jarr _ => false
  | .jobj _ => false
  | _ => true

/-- `self.spiders.get(spider_name, None)` (x.py line 155): look the
extracted value up in the registry of discovered spiders.  The registry
maps spider names (strings) to spider classes.  When `spider_name` is
unhashable (a decoded JSON list or dict), Python `dict.get` raises
`TypeError`, modelled by `error ()`; any other non-string key is simply
not found, as is a string absent from the registry. -/
def spidersGet (registry : List String) (name : JVal) : Except Unit (Option String) :=
  match name with
  | .jarr _ => .error ()
  | .jobj _ => .error ()
  | .jstr s => .ok (if registry.contains s then some s else none)
  | _ => .ok none

/-- x.py lines 158-165: if the extracted `args` is not a dict, log a
warning and replace it with an empty dict.  Returns the emitted log
events and the final args mapping. -/
def normalizeArgs (v : JVal) : List LogEvent × List (String × JVal) :=
  match v with
  | .jobj m => ([], m)
  | _ => ([⟨.warning, "invalid args object, replacing it with empty one"⟩], [])

/-- `args = task.get("args", {})` (x.py line 156) followed by the
normalization of lines 158-165. -/
def extractArgs (fields : List (String × JVal)) : List LogEvent × List (String × JVal) :=
  normalizeArgs ((JVal.lookup fields "args").getD (.jobj []))

/-- `recordCompletion` — x.py lines 179-190: increment the finished
counter by 1, increment the RPM counter by 1, and call `expire(key, 60)`
exactly when the value returned by the RPM increment equals 1.  Returns
the new counter state and whether `expire` was called. -/
def recordCompletion (st : RedisState) : RedisState × Bool :=
  let finished := st.finished + 1
  let rpm := st.rpm + 1
  (⟨finished, rpm⟩, rpm == 1)

/-- Result of one pass through the body of the `while True` loop of
`Command.consumer` (x.py lines 136-190), together with the effect of the
surrounding fatal handler (lines 192-200). -/
structure IterOut where
  logs : List LogEvent
  executorCalled : Option (String × List (String × JVal))
  finishedIncr : Bool
  rpmIncr : Bool
  expireCalled : Bool
  post : RedisState
  outcome : Outcome

/-- One iteration of the consumer loop, x.py lines 136-190 under the
handler of lines 192-200.

* `blpop` raising (line 140) logs `queue error` at critical level and
  calls `os._exit(-1)` (lines 141-142).
* `json.loads` raising (line 146) logs `invalid task payload` at
  critical level and continues the loop (lines 147-149).
* On a parsed payload the info message of lines 151-152 is logged; then
  `task.get("spider", None)` on a non-dict task raises `AttributeError`,
  which no inner handler catches: it reaches the outer handler of lines
  192-200, which logs `QueueWorkerExit` at critical level and calls
  `os._exit(-1)`.
* On a dict task, the spider is looked up (line 155); when the `spider`
  value is an unhashable list or dict, `dict.get` raises `TypeError`
  there, before the args extraction, and the outer handler again logs
  `QueueWorkerExit` and calls `os._exit(-1)`.  Otherwise args are
  extracted and normalized (lines 156-165), an unknown spider logs
  `unknwon spider` at critical level and continues (lines 167-170), and
  otherwise
  `utils.crawl` is called (line 173); an exception from it is caught and
  logged at critical level only when its stripped string form is
  nonempty (lines 174-177), and the iteration then records completion
  (lines 179-190). -/
def consumerIter (registry : List String)
    (crawl : String → List (String × JVal) → Option String)
    (st : RedisState) (dq : Except String (Option JVal)) : IterOut :=
  match dq with
  | .error _ =>
    { logs := [⟨.critical, "queue error"⟩], executorCalled := none
    , finishedIncr := false, rpmIncr := false, expireCalled := false
    , post := st, outcome := .fatalExit (-1) }
  | .ok none =>
    { logs := [⟨.critical, "invalid task payload"⟩], executorCalled := none
    , finishedIncr := false, rpmIncr := false, expireCalled := false
    , post := st, outcome := .continueLoop }
  | .ok (some (.jobj fields)) =>
    match spidersGet registry (extractSpiderName fields) with
    | .error _ =>
      { logs := [⟨.info, "detected new job and started working on it"⟩,
          ⟨.critical, "QueueWorkerExit"⟩]
      , executorCalled := none
      , finishedIncr := false, rpmIncr := false, expireCalled := false
      , post := st, outcome := .fatalExit (-1) }
    | .ok none =>
      { logs := [⟨.info, "detected new job and started working on it"⟩] ++
          (extractArgs fields).1 ++ [⟨.critical, "unknwon spider"⟩]
      , executorCalled := none
      , finishedIncr := false, rpmIncr := false, expireCalled := false
      , post := st, outcome := .continueLoop }
    | .ok (some s) =>
      let args := (extractArgs fields).2
      let crawlLogs := match crawl s args with
        | none => []
        | some e =>
          if pyStrip e = "" then []
          else [⟨.critical, "exception from scrapy"⟩]
      let rc := recordCompletion st
      { logs := [⟨.info, "detected new job and started working on it"⟩] ++
          (extractArgs fields).1 ++ crawlLogs
      , executorCalled := some (s, args)
      , finishedIncr := true, rpmIncr := true, expireCalled := rc.2
      , post := rc.1, outcome := .continueLoop }
  | .ok (some _) =>
    { logs := [⟨.info, "detected new job and started working on it"⟩,
        ⟨.critical, "QueueWorkerExit"⟩]
    , executorCalled := none
    , finishedIncr := false, rpmIncr := false, expireCalled := false
    , post := st, outcome := .fatalExit (-1) }

/-- Opening the dedicated per-loop Redis connection, x.py lines 125-134:
a raising constructor logs at critical level and calls `os._exit(-1)`;
success proceeds to the loop. -/
def consumerConnectStep (conn : Except String Unit) : List LogEvent × Outcome :=
  match conn with
  | .error _ => ([⟨.critical, "redis"⟩], .fatalExit (-1))
  | .ok _ => ([], .continueLoop)

/-- Running the consumer loop over a finite prefix of dequeue results:
iterate `consumerIter`, stopping when an iteration exits the process. -/
def consumerRun (registry : List String)
    (crawl : String → List (String × JVal) → Option String)
    (st : RedisState) : List (Except String (Option JVal)) → RedisState
  | [] => st
  | dq :: rest =>
    let out := consumerIter registry crawl st dq
    match out.outcome with
    | .fatalExit _ => out.post
    | .continueLoop => consumerRun registry crawl out.post rest

/-- An input on which the iteration reaches the executor call: the
payload parses to a dict whose `spider` field resolves in the
registry. -/
def reachesExecutor (registry : List String)
    (dq : Except String (Option JVal)) : Bool :=
  match dq with
  | .ok (some (.jobj fields)) =>
    match spidersGet registry (extractSpiderName fields) with
    | .ok (some _) => true
    | _ => false
  | _ => false

/-! ### Branch evaluation lemmas for `consumerIter` -/

theorem consumerIter_typeerror_eq (registry : List String)
    (crawl : String → List (String × JVal) → Option String)
    (st : RedisState) (fields : List (String × JVal)) (u : Unit)
    (h : spidersGet registry (extractSpiderName fields) = .error u) :
    consumerIter registry crawl st (.ok (some (.jobj fields))) =
      { logs := [⟨.info, "detected new job and started working on it"⟩,
          ⟨.critical, "QueueWorkerExit"⟩]
      , executorCalled := none
      , finishedIncr := false, rpmIncr := false, expireCalled := false
      , post := st, outcome := .fatalExit (-1) } := by
  simp only [consumerIter, h]

theorem consumerIter_unknown_eq (registry : List String)
    (crawl : String → List (String × JVal) → Option String)
    (st : RedisState) (fields : List (String × JVal))
    (h : spidersGet registry (extractSpiderName fields) = .ok none) :
    consumerIter registry crawl st (.ok (some (.jobj fields))) =
      { logs := [⟨.info, "detected new job and started working on it"⟩] ++
          (extractArgs fields).1 ++ [⟨.critical, "unknwon spider"⟩]
      , executorCalled := none
      , finishedIncr := false, rpmIncr := false, expireCalled := false
      , post := st, outcome := .continueLoop } := by
  simp only [consumerIter, h]

theorem consumerIter_found_eq (registry : List String)
    (crawl : String → List (String × JVal) → Option String)
    (st : RedisState) (fields : List (String × JVal)) (s : String)
    (h : spidersGet registry (extractSpiderName fields) = .ok (some s)) :
    consumerIter registry crawl st (.ok (some (.jobj fields))) =
      { logs := [⟨.info, "detected new job and started working on it"⟩] ++
          (extractArgs fields).1 ++
          (match crawl s (extractArgs fields).2 with
            | none => []
            | some e =>
              if pyStrip e = "" then []
              else [⟨.critical, "exception from scrapy"⟩])
      , executorCalled := some (s, (extractArgs fields).2)
      , finishedIncr := true, rpmIncr := true
      , expireCalled := (recordCompletion st).2
      , post := (recordCompletion st).1, outcome := .continueLoop } := by
  simp only [consumerIter, h]

theorem normalizeArgs_cases (v : JVal) :
    (∃ m, v = .jobj m ∧ normalizeArgs v = ([], m)) ∨
      (v.isObj = false ∧ normalizeArgs v =
        ([⟨.warning, "invalid args object, replacing it with empty one"⟩], [])) := by
  cases v <;> simp [normalizeArgs, JVal.isObj]

theorem spidersGet_ok_of_hashable (registry : List String) (name : JVal)
    (h : name.hashable = true) :
    ∃ r, spidersGet registry name = .ok r := by
  cases name with
  | jarr xs => simp [JVal.hashable] at h
  | jobj fs => simp [JVal.hashable] at h
  | jnull => exact ⟨_, rfl⟩
  | jbool b => exact ⟨_, rfl⟩
  | jnum n => exact ⟨_, rfl⟩
  | jstr s => exact ⟨_, rfl⟩

/-! ### Claims -/

/-- Claim C1: in a consumer loop, a failure to open the dedicated Redis
connection, and any error raised by the blocking dequeue call, are each
logged at critical level and end the whole process immediately through
the abrupt nonzero exit `os._exit(-1)`: no cleanup (the counters are
untouched), no retry, no further dispatch, no unwind of other loops. -/
theorem fatal_on_connect_or_dequeue_error (e : String)
    (registry : List String)
    (crawl : String → List (String × JVal) → Option String)
    (st : RedisState) :
    consumerConnectStep (.error e) = ([⟨.critical, "redis"⟩], .fatalExit (-1)) ∧
      consumerIter registry crawl st (.error e) =
        { logs := [⟨.critical, "queue error"⟩], executorCalled := none
        , finishedIncr := false, rpmIncr := false, expireCalled := false
        , post := st, outcome := .fatalExit (-1) } ∧
      (-1 : Int) ≠ 0 := by
  refine ⟨rfl, rfl, by decide⟩

/-- Claim C3 (counterexample): the payload `42` is valid JSON but not a
job-descriptor object; the code does not skip it — `task.get` raises,
the outer handler logs `QueueWorkerExit` and the whole process dies via
`os._exit(-1)`, contradicting the claim that no malformed payload
terminates the worker or the process. -/
theorem nonobject_payload_kills_process :
    (consumerIter ["c3spider"] (fun _ _ => none) ⟨0, 0⟩
        (.ok (some (.jnum 42)))).outcome = .fatalExit (-1) ∧
      (consumerIter ["c3spider"] (fun _ _ => none) ⟨0, 0⟩
        (.ok (some (.jnum 42)))).logs =
        [⟨.info, "detected new job and started working on it"⟩,
         ⟨.critical, "QueueWorkerExit"⟩] :=
  ⟨rfl, rfl⟩

/-- Claim C3 (amended): for every raw payload on which the JSON parse
itself fails, the failure is logged (at critical level), dispatch and
record are never invoked for that iteration, the counters are untouched
and the loop proceeds to block again without terminating; however a
payload that parses to a non-object JSON value instead escapes the loop
and terminates the process (see the counterexample). -/
theorem parse_failure_skips_iteration (registry : List String)
    (crawl : String → List (String × JVal) → Option String)
    (st : RedisState) :
    consumerIter registry crawl st (.ok none) =
      { logs := [⟨.critical, "invalid task payload"⟩], executorCalled := none
      , finishedIncr := false, rpmIncr := false, expireCalled := false
      , post := st, outcome := .continueLoop } :=
  rfl

/-- Claim C5: key derivation is a pure function; for every namespace and
suffix it returns exactly the backlog key `N.S.BACKLOG`, the finished
counter key `N.S.C.FINISHED.` and the rate counter key `N.S.C.RPM.`,
each built by concatenating the namespace, a dot, the suffix, and the
fixed role tag; on the spec example `N = Q`, `S = a` the keys are
literally `Q.a.BACKLOG`, `Q.a.C.FINISHED.` and `Q.a.C.RPM.`. -/
theorem deriveKeys_literal (qname : String) (suffix : String) :
    deriveKeys qname suffix =
      { backlog := qname ++ "." ++ suffix ++ ".BACKLOG"
      , finishedCounter := qname ++ "." ++ suffix ++ ".C.FINISHED."
      , rateCounter := qname ++ "." ++ suffix ++ ".C.RPM." } ∧
      deriveKeys "Q" "a" =
        { backlog := "Q.a.BACKLOG"
        , finishedCounter := "Q.a.C.FINISHED."
        , rateCounter := "Q.a.C.RPM." } :=
  ⟨rfl, rfl⟩

theorem consumerIter_reaches (registry : List String)
    (crawl : String → List (String × JVal) → Option String)
    (st : RedisState) (dq : Except String (Option JVal))
    (h : reachesExecutor registry dq = true) :
    (consumerIter registry crawl st dq).outcome = .continueLoop ∧
      (consumerIter registry crawl st dq).post.finished = st.finished + 1 := by
  match dq with
  | .error e => simp [reachesExecutor] at h
  | .ok none => simp [reachesExecutor] at h
  | .ok (some t) =>
    cases t with
    | jobj fields =>
      cases hs : spidersGet registry (extractSpiderName fields) with
      | error u => simp [reachesExecutor, hs] at h
      | ok r =>
        cases r with
        | none => simp [reachesExecutor, hs] at h
        | some s =>
          rw [consumerIter_found_eq registry crawl st fields s hs]
          exact ⟨rfl, rfl⟩
    | jnull => simp [reachesExecutor] at h
    | jbool b => simp [reachesExecutor] at h
    | jnum n => simp [reachesExecutor] at h
    | jstr s => simp [reachesExecutor] at h
    | jarr xs => simp [reachesExecutor] at h

/-- Claim C2 (counterexample): an iteration whose payload is a valid
object with an unknown spider reaches the dispatch step, is skipped with
a critical log, and the loop continues — but it does *not* proceed to
the stats-recording step: the finished counter is not incremented, so
after this dispatch cycle the counter is 0, not 1. -/
theorem unknown_skip_does_not_record :
    (consumerIter [] (fun _ _ => none) ⟨0, 0⟩
        (.ok (some (.jobj [("spider", .jstr "nope")])))).outcome =
          .continueLoop ∧
      (consumerIter [] (fun _ _ => none) ⟨0, 0⟩
        (.ok (some (.jobj [("spider", .jstr "nope")])))).logs =
        [⟨.info, "detected new job and started working on it"⟩,
         ⟨.critical, "unknwon spider"⟩] ∧
      (consumerIter [] (fun _ _ => none) ⟨0, 0⟩
        (.ok (some (.jobj [("spider", .jstr "nope")])))).finishedIncr = false ∧
      (consumerIter [] (fun _ _ => none) ⟨0, 0⟩
        (.ok (some (.jobj [("spider", .jstr "nope")])))).post.finished = 0 :=
  ⟨rfl, rfl, rfl, rfl⟩

/-- Claim C2 (amended): every loop iteration on which the executor is
actually invoked — whether the executor succeeds or fails with a handled
error — proceeds to the stats-recording step, so after N such dispatch
cycles on one queue the finished counter has grown by exactly N, one
increment per iteration; iterations skipped because the jobId is unknown
do not reach the recording step and add nothing (see the
counterexample). -/
theorem finished_counter_counts_executor_cycles (registry : List String)
    (crawl : String → List (String × JVal) → Option String)
    (st : RedisState) (dqs : List (Except String (Option JVal)))
    (h : ∀ dq ∈ dqs, reachesExecutor registry dq = true) :
    (consumerRun registry crawl st dqs).finished = st.finished + dqs.length := by
  induction dqs generalizing st with
  | nil => simp [consumerRun]
  | cons dq rest ih =>
    have hdq := h dq (List.mem_cons_self dq rest)
    have hrest : ∀ d ∈ rest, reachesExecutor registry d = true :=
      fun d hd => h d (List.mem_cons_of_mem dq hd)
    obtain ⟨hout, hfin⟩ := consumerIter_reaches registry crawl st dq hdq
    simp only [consumerRun, hout, ih _ hrest, hfin, List.length_cons]
    omega

/-- Claim C2 (witness for the amended theorem): two concrete dispatch
cycles on a registered spider grow the finished counter from 0 to 2. -/
theorem finished_counter_counts_executor_cycles_witness :
    (consumerRun ["w2spider"] (fun _ _ => none) ⟨0, 0⟩
        [.ok (some (.jobj [("spider", .jstr "w2spider")])),
         .ok (some (.jobj [("spider", .jstr "w2spider"),
                           ("args", .jobj [])]))]).finished = 0 + 2 :=
  finished_counter_counts_executor_cycles ["w2spider"] (fun _ _ => none)
    ⟨0, 0⟩ _ (by decide)

/-- Claim C4: on every iteration, the RPM counter is incremented by one
exactly when the iteration completes (records), and the 60-second expiry
is set if and only if this increment happened and the post-increment
value equals 1 — the increment that creates a fresh counter; on
iterations with no RPM increment, `expire` is never called, and nothing
else (in particular not the finished-counter increment) touches the
expiry. -/
theorem rpm_increment_sets_expiry_iff_fresh (registry : List String)
    (crawl : String → List (String × JVal) → Option String)
    (st : RedisState) (dq : Except String (Option JVal)) :
    (consumerIter registry crawl st dq).rpmIncr =
        (consumerIter registry crawl st dq).finishedIncr ∧
      (consumerIter registry crawl st dq).post.rpm =
        st.rpm + (if (consumerIter registry crawl st dq).rpmIncr then 1 else 0) ∧
      (consumerIter registry crawl st dq).expireCalled =
        ((consumerIter registry crawl st dq).rpmIncr &&
          (st.rpm + 1 == 1)) := by
  match dq with
  | .error e => exact ⟨rfl, rfl, rfl⟩
  | .ok none => exact ⟨rfl, rfl, rfl⟩
  | .ok (some t) =>
    cases t with
    | jobj fields =>
      cases hs : spidersGet registry (extractSpiderName fields) with
      | error u =>
        rw [consumerIter_typeerror_eq registry crawl st fields u hs]
        exact ⟨rfl, rfl, rfl⟩
      | ok r =>
        cases r with
        | none =>
          rw [consumerIter_unknown_eq registry crawl st fields hs]
          exact ⟨rfl, rfl, rfl⟩
        | some s =>
          rw [consumerIter_found_eq registry crawl st fields s hs]
          refine ⟨rfl, rfl, ?_⟩
          simp [recordCompletion]
    | jnull => exact ⟨rfl, rfl, rfl⟩
    | jbool b => exact ⟨rfl, rfl, rfl⟩
    | jnum n => exact ⟨rfl, rfl, rfl⟩
    | jstr s => exact ⟨rfl, rfl, rfl⟩
    | jarr xs => exact ⟨rfl, rfl, rfl⟩

/-- Claim C6 (counterexample): a payload whose `args` field is present
and not a mapping but whose `spider` field is an unhashable list makes
`dict.get` raise `TypeError` at x.py line 155, before the args
normalization of lines 156-165 ever runs: the warning is never logged
and the process exits fatally instead of proceeding. -/
theorem unhashable_spider_preempts_args_warning :
    JVal.lookup [("spider", .jarr []), ("args", .jstr "oops")] "args" =
        some (.jstr "oops") ∧
      (consumerIter [] (fun _ _ => none) ⟨0, 0⟩
        (.ok (some (.jobj [("spider", .jarr []),
                           ("args", .jstr "oops")])))).outcome =
        .fatalExit (-1) ∧
      LogEvent.mk .warning "invalid args object, replacing it with empty one" ∉
        (consumerIter [] (fun _ _ => none) ⟨0, 0⟩
          (.ok (some (.jobj [("spider", .jarr []),
                             ("args", .jstr "oops")])))).logs :=
  ⟨rfl, rfl, by decide⟩

/-- Claim C6 (amended): when the `args` field of a parsed payload is
present but not a mapping, and the `spider` field is a hashable value
(absent, null, a boolean, a number or a string), decoding does not fail:
the warning of x.py lines 159-163 is logged, `args` is replaced by the
empty mapping, and the iteration proceeds normally (the loop continues);
when the `spider` field is itself a list or a mapping, the registry
lookup of line 155 raises before the args normalization and the process
exits fatally (see the counterexample). -/
theorem invalid_args_warns_and_continues (registry : List String)
    (crawl : String → List (String × JVal) → Option String)
    (st : RedisState) (fields : List (String × JVal)) (v : JVal)
    (h0 : (extractSpiderName fields).hashable = true)
    (h1 : JVal.lookup fields "args" = some v)
    (h2 : v.isObj = false) :
    extractArgs fields =
        ([⟨.warning, "invalid args object, replacing it with empty one"⟩], []) ∧
      LogEvent.mk .warning "invalid args object, replacing it with empty one" ∈
        (consumerIter registry crawl st (.ok (some (.jobj fields)))).logs ∧
      (consumerIter registry crawl st (.ok (some (.jobj fields)))).outcome =
        .continueLoop := by
  have hx : extractArgs fields =
      ([⟨.warning, "invalid args object, replacing it with empty one"⟩], []) := by
    unfold extractArgs
    rw [h1]
    simp only [Option.getD_some]
    rcases normalizeArgs_cases v with ⟨m, hm, he⟩ | ⟨_, he⟩
    · rw [hm] at h2; simp [JVal.isObj] at h2
    · exact he
  obtain ⟨r, hr⟩ :=
    spidersGet_ok_of_hashable registry (extractSpiderName fields) h0
  refine ⟨hx, ?_, ?_⟩
  · cases r with
    | none =>
      rw [consumerIter_unknown_eq registry crawl st fields hr]
      simp [hx]
    | some s =>
      rw [consumerIter_found_eq registry crawl st fields s hr]
      simp [hx]
  · cases r with
    | none => rw [consumerIter_unknown_eq registry crawl st fields hr]
    | some s => rw [consumerIter_found_eq registry crawl st fields s hr]

/-- Claim C6 (witness for the amended theorem): a concrete payload with
a string-valued spider and a string `args` field is normalized to an
empty mapping with a warning, and the loop goes on. -/
theorem invalid_args_warns_and_continues_witness :
    extractArgs [("spider", .jstr "w6spider"), ("args", .jstr "oops")] =
        ([⟨.warning, "invalid args object, replacing it with empty one"⟩], []) ∧
      LogEvent.mk .warning "invalid args object, replacing it with empty one" ∈
        (consumerIter [] (fun _ _ => none) ⟨0, 0⟩
          (.ok (some (.jobj [("spider", .jstr "w6spider"),
                             ("args", .jstr "oops")])))).logs ∧
      (consumerIter [] (fun _ _ => none) ⟨0, 0⟩
        (.ok (some (.jobj [("spider", .jstr "w6spider"),
                           ("args", .jstr "oops")])))).outcome = .continueLoop :=
  invalid_args_warns_and_continues [] (fun _ _ => none) ⟨0, 0⟩
    [("spider", .jstr "w6spider"), ("args", .jstr "oops")] (.jstr "oops")
    rfl rfl rfl

/-- Claim C7 (counterexample): a job whose `spider` value is a mapping
is certainly absent from the registry (whose keys are strings), yet the
dispatch step does not log `unknwon spider` and the loop does not
continue: `dict.get` raises `TypeError` past the loop at x.py line 155
and the outer handler kills the process via `os._exit(-1)`. -/
theorem mapping_jobid_raises_past_loop :
    (consumerIter ["c7known"] (fun _ _ => none) ⟨0, 0⟩
        (.ok (some (.jobj [("spider", .jobj [])])))).outcome =
        .fatalExit (-1) ∧
      LogEvent.mk .critical "unknwon spider" ∉
        (consumerIter ["c7known"] (fun _ _ => none) ⟨0, 0⟩
          (.ok (some (.jobj [("spider", .jobj [])])))).logs ∧
      (consumerIter ["c7known"] (fun _ _ => none) ⟨0, 0⟩
        (.ok (some (.jobj [("spider", .jobj [])])))).executorCalled = none :=
  ⟨rfl, by decide, rfl⟩

/-- Claim C7 (amended): when the spider value of a decoded job is
hashable but resolves to nothing in the registry (a string absent from
it, or null/absent, a boolean or a number), the iteration logs the
critical `unknwon spider` message, never calls the executor, leaves the
counters alone, and the loop continues — the condition is not fatal and
the job is dropped; a `spider` value that is a list or a mapping instead
raises `TypeError` past the loop and the process exits fatally (see the
counterexample). -/
theorem unknown_jobid_drops_job (registry : List String)
    (crawl : String → List (String × JVal) → Option String)
    (st : RedisState) (fields : List (String × JVal))
    (h : spidersGet registry (extractSpiderName fields) = .ok none) :
    (consumerIter registry crawl st (.ok (some (.jobj fields)))).executorCalled =
        none ∧
      LogEvent.mk .critical "unknwon spider" ∈
        (consumerIter registry crawl st (.ok (some (.jobj fields)))).logs ∧
      (consumerIter registry crawl st (.ok (some (.jobj fields)))).outcome =
        .continueLoop ∧
      (consumerIter registry crawl st (.ok (some (.jobj fields)))).post = st := by
  rw [consumerIter_unknown_eq registry crawl st fields h]
  refine ⟨rfl, ?_, rfl, rfl⟩
  simp

/-- Claim C7 (witness): dispatching a job naming an unregistered spider
on a registry that knows only another name drops the job and goes on. -/
theorem unknown_jobid_drops_job_witness :
    (consumerIter ["w7real"] (fun _ _ => none) ⟨0, 0⟩
        (.ok (some (.jobj [("spider", .jstr "w7ghost")])))).executorCalled =
        none ∧
      LogEvent.mk .critical "unknwon spider" ∈
        (consumerIter ["w7real"] (fun _ _ => none) ⟨0, 0⟩
          (.ok (some (.jobj [("spider", .jstr "w7ghost")])))).logs ∧
      (consumerIter ["w7real"] (fun _ _ => none) ⟨0, 0⟩
        (.ok (some (.jobj [("spider", .jstr "w7ghost")])))).outcome =
        .continueLoop ∧
      (consumerIter ["w7real"] (fun _ _ => none) ⟨0, 0⟩
        (.ok (some (.jobj [("spider", .jstr "w7ghost")])))).post = ⟨0, 0⟩ :=
  unknown_jobid_drops_job ["w7real"] (fun _ _ => none) ⟨0, 0⟩
    [("spider", .jstr "w7ghost")] rfl

/-- Claim C8 (counterexample): an executor error whose string form is
empty is caught but *not* logged at critical level — the iteration emits
no `exception from scrapy` event at all (its only log is the info
message), contradicting the claim that every executor error is logged at
critical level. -/
theorem empty_executor_error_not_logged :
    (consumerIter ["c8spider"] (fun _ _ => some "") ⟨0, 0⟩
        (.ok (some (.jobj [("spider", .jstr "c8spider")])))).executorCalled =
        some ("c8spider", []) ∧
      LogEvent.mk .critical "exception from scrapy" ∉
        (consumerIter ["c8spider"] (fun _ _ => some "") ⟨0, 0⟩
          (.ok (some (.jobj [("spider", .jstr "c8spider")])))).logs ∧
      (consumerIter ["c8spider"] (fun _ _ => some "") ⟨0, 0⟩
        (.ok (some (.jobj [("spider", .jstr "c8spider")])))).outcome =
        .continueLoop :=
  ⟨rfl, by decide, rfl⟩

/-- Claim C8 (amended): every error raised by the executor is caught —
the process does not terminate and the loop continues, the job is
consumed exactly once with no retry or requeue (the iteration still
records completion once) — and the error is logged at critical level if
and only if its string representation is nonempty after stripping
whitespace in the sense of Python `str.strip()` (the full CPython
whitespace set, see `pySpaceChars`). -/
theorem executor_error_caught_and_logged_iff_nonblank (registry : List String)
    (crawl : String → List (String × JVal) → Option String)
    (st : RedisState) (fields : List (String × JVal)) (s : String)
    (msg : String)
    (h1 : extractSpiderName fields = .jstr s)
    (h2 : registry.contains s = true)
    (h3 : crawl s (extractArgs fields).2 = some msg) :
    (consumerIter registry crawl st (.ok (some (.jobj fields)))).outcome =
        .continueLoop ∧
      (consumerIter registry crawl st (.ok (some (.jobj fields)))).executorCalled =
        some (s, (extractArgs fields).2) ∧
      (LogEvent.mk .critical "exception from scrapy" ∈
          (consumerIter registry crawl st (.ok (some (.jobj fields)))).logs ↔
        pyStrip msg ≠ "") ∧
      (consumerIter registry crawl st (.ok (some (.jobj fields)))).post.finished =
        st.finished + 1 := by
  have hs : spidersGet registry (extractSpiderName fields) = .ok (some s) := by
    rw [h1]; simp only [spidersGet]; rw [h2]; simp
  rw [consumerIter_found_eq registry crawl st fields s hs]
  refine ⟨rfl, rfl, ?_, rfl⟩
  have hargs : (extractArgs fields).1 = [] ∨
      (extractArgs fields).1 =
        [⟨.warning, "invalid args object, replacing it with empty one"⟩] := by
    unfold extractArgs
    rcases normalizeArgs_cases ((JVal.lookup fields "args").getD (.jobj []))
      with ⟨m, _, he⟩ | ⟨_, he⟩
    · left; rw [he]
    · right; rw [he]
  by_cases hmsg : pyStrip msg = ""
  · rcases hargs with he | he <;> simp [h3, he, hmsg]
  · rcases hargs with he | he <;> simp [h3, he, hmsg]

/-- Claim C8 (witness for the amended theorem): a concrete executor
error with the nonblank message `w8boom` is caught, logged, and the
iteration completes once. -/
theorem executor_error_caught_and_logged_iff_nonblank_witness :
    (consumerIter ["w8spider"] (fun _ _ => some "w8boom") ⟨0, 0⟩
        (.ok (some (.jobj [("spider", .jstr "w8spider")])))).outcome =
        .continueLoop ∧
      (consumerIter ["w8spider"] (fun _ _ => some "w8boom") ⟨0, 0⟩
        (.ok (some (.jobj [("spider", .jstr "w8spider")])))).executorCalled =
        some ("w8spider",
          (extractArgs [("spider", .jstr "w8spider")]).2) ∧
      (LogEvent.mk .critical "exception from scrapy" ∈
          (consumerIter ["w8spider"] (fun _ _ => some "w8boom") ⟨0, 0⟩
            (.ok (some (.jobj [("spider", .jstr "w8spider")])))).logs ↔
        pyStrip "w8boom" ≠ "") ∧
      (consumerIter ["w8spider"] (fun _ _ => some "w8boom") ⟨0, 0⟩
        (.ok (some (.jobj [("spider", .jstr "w8spider")])))).post.finished =
        0 + 1 :=
  executor_error_caught_and_logged_iff_nonblank ["w8spider"]
    (fun _ _ => some "w8boom") ⟨0, 0⟩ [("spider", .jstr "w8spider")]
    "w8spider" "w8boom" rfl rfl rfl

/-- Claim C9: a well-formed payload of shape
`(spider maps to s, args maps to a mapping m)` decodes with the spider
name and args extracted unchanged; `args` defaults to the empty mapping
exactly when the field is absent; on the concrete spec example the
executor is invoked with jobId `foo` and args mapping `x maps to 1`. -/
theorem wellformed_payload_decodes (s : String) (m : List (String × JVal)) :
    extractSpiderName [("spider", .jstr s), ("args", .jobj m)] = .jstr s ∧
      extractArgs [("spider", .jstr s), ("args", .jobj m)] = ([], m) ∧
      extractArgs [("spider", .jstr s)] = ([], []) ∧
      (consumerIter ["foo"] (fun _ _ => none) ⟨0, 0⟩
        (.ok (some (.jobj [("spider", .jstr "foo"),
                           ("args", .jobj [("x", .jnum 1)])])))).executorCalled =
        some ("foo", [("x", .jnum 1)]) := by
  refine ⟨?_, ?_, rfl, rfl⟩
  · simp [extractSpiderName, JVal.lookup]
  · simp [extractArgs, JVal.lookup, normalizeArgs]

/-- Claim C10: an executor error whose string form is empty or pure
whitespace is swallowed by the `str(e).strip()` guard of x.py line 175:
the iteration logs nothing beyond the initial info message, yet still
increments both the finished counter and the RPM counter and the loop
continues. -/
theorem blank_executor_error_swallowed (registry : List String)
    (crawl : String → List (String × JVal) → Option String)
    (st : RedisState) (fields : List (String × JVal)) (s : String)
    (a : List (String × JVal)) (msg : String)
    (h1 : extractSpiderName fields = .jstr s)
    (h2 : registry.contains s = true)
    (h3 : extractArgs fields = ([], a))
    (h4 : crawl s a = some msg)
    (h5 : pyStrip msg = "") :
    (consumerIter registry crawl st (.ok (some (.jobj fields)))).logs =
        [⟨.info, "detected new job and started working on it"⟩] ∧
      (consumerIter registry crawl st (.ok (some (.jobj fields)))).post.finished =
        st.finished + 1 ∧
      (consumerIter registry crawl st (.ok (some (.jobj fields)))).post.rpm =
        st.rpm + 1 ∧
      (consumerIter registry crawl st (.ok (some (.jobj fields)))).outcome =
        .continueLoop := by
  have hs : spidersGet registry (extractSpiderName fields) = .ok (some s) := by
    rw [h1]; simp only [spidersGet]; rw [h2]; simp
  rw [consumerIter_found_eq registry crawl st fields s hs]
  refine ⟨?_, rfl, rfl, rfl⟩
  simp [h3, h4, h5]

/-- Claim C10 (witness): a concrete executor error whose message is two
spaces is swallowed with no log beyond the info message while both
counters advance from 3 and 7 to 4 and 8. -/
theorem blank_executor_error_swallowed_witness :
    (consumerIter ["w10spider"] (fun _ _ => some "  ") ⟨3, 7⟩
        (.ok (some (.jobj [("spider", .jstr "w10spider")])))).logs =
        [⟨.info, "detected new job and started working on it"⟩] ∧
      (consumerIter ["w10spider"] (fun _ _ => some "  ") ⟨3, 7⟩
        (.ok (some (.jobj [("spider", .jstr "w10spider")])))).post.finished =
        3 + 1 ∧
      (consumerIter ["w10spider"] (fun _ _ => some "  ") ⟨3, 7⟩
        (.ok (some (.jobj [("spider", .jstr "w10spider")])))).post.rpm =
        7 + 1 ∧
      (consumerIter ["w10spider"] (fun _ _ => some "  ") ⟨3, 7⟩
        (.ok (some (.jobj [("spider", .jstr "w10spider")])))).outcome =
        .continueLoop :=
  blank_executor_error_swallowed ["w10spider"] (fun _ _ => some "  ")
    ⟨3, 7⟩ [("spider", .jstr "w10spider")] "w10spider" [] "  "
    rfl rfl rfl rfl rfl

end ScrapyX
